import Mathlib

/-!
Verification of the AWS inventory-pipeline repository
(`infra/deploy.py`, `infra/teardown.py`, and the three Lambda handlers)
against its natural-language specification.

The Python sources are shallowly embedded: boto3 client calls become
operations on explicit state values, exceptions become `Except` results,
and wall-clock time is discrete (only `time.sleep` advances it).
-/

/-- A botocore `ClientError`: carries the provider error code string
(`e.response["Error"]["Code"]`). -/
structure ClientErr where
  code : String
deriving DecidableEq, Repr

/-- A Python exception as observed by `call_with_retries`: either a
`ClientError` with its code, or any other exception (tagged by a string). -/
inductive PyErr where
  | clientError (code : String)
  | otherError (tag : String)
deriving DecidableEq, Repr

/-- What a `raise` statement at the end of `call_with_retries` raises:
the stored last exception, or — when `last_exc` is still `None` because no
attempt ever ran — Python's `TypeError` from `raise None`. -/
inductive Raised where
  | exc (e : PyErr)
  | raisedNone
deriving DecidableEq, Repr

namespace Deploy

/-- The retryable-code test from `call_with_retries`:
`code in ("ResourceConflictException", "TooManyRequestsException")`. -/
def retryableCode (code : String) : Bool :=
  code = "ResourceConflictException" || code = "TooManyRequestsException"

/-- Whether `call_with_retries` retries after exception `e`:
a `ClientError` is retried exactly when its code is retryable (otherwise
re-raised from the first `except` arm); every non-`ClientError` exception
falls to the `except Exception` arm, which always sleeps and retries. -/
def retriesOn : PyErr → Bool
  | .clientError code => retryableCode code
  | .otherError _ => true

/-- Outcome of one run of `call_with_retries`: the returned value or the
raised exception, the number of attempts (calls of `fn`) made, and the
total seconds spent in `time.sleep`. -/
structure RetryRun (α : Type) where
  result : Except Raised α
  attempts : Nat
  sleptSeconds : Nat
deriving Repr

/-- The loop body of `call_with_retries`, recursing on the remaining
iterations of `for _ in range(retries)`. `fn i` is the outcome of the
`(i+1)`-th call of the zero-argument operation `fn`. -/
def callWithRetriesAux {α : Type} (fn : Nat → Except PyErr α) (sleepS : Nat)
    (i : Nat) (remaining : Nat) (lastExc : Option PyErr)
    (attempts slept : Nat) : RetryRun α :=
  match remaining with
  | 0 =>
    ⟨.error (match lastExc with | some e => .exc e | none => .raisedNone),
      attempts, slept⟩
  | r + 1 =>
    match fn i with
    | .ok v => ⟨.ok v, attempts + 1, slept⟩
    | .error e =>
      if retriesOn e then
        callWithRetriesAux fn sleepS (i + 1) r (some e) (attempts + 1)
          (slept + sleepS)
      else ⟨.error (.exc e), attempts + 1, slept⟩

/-- `call_with_retries(fn, retries=8, sleep_s=2)` from `infra/deploy.py`. -/
def call_with_retries {α : Type} (fn : Nat → Except PyErr α)
    (retries : Nat) (sleepS : Nat) : RetryRun α :=
  callWithRetriesAux fn sleepS 0 retries none 0 0

/-- Result of `lambda_client.get_function_configuration`, restricted to the
two keys `wait_lambda_ready` reads; an absent key is `none` (the code
supplies the dict-get default `"Unknown"`). -/
structure LambdaCfg where
  state : Option String
  lastUpdateStatus : Option String
deriving DecidableEq, Repr

/-- `cfg.get("State", "Unknown")`. -/
def cfgState (c : LambdaCfg) : String := c.state.getD "Unknown"

/-- `cfg.get("LastUpdateStatus", "Unknown")`. -/
def cfgLastUpdate (c : LambdaCfg) : String := c.lastUpdateStatus.getD "Unknown"

/-- The readiness test of `wait_lambda_ready`:
`state == "Active" and last_update in ("Successful", "Unknown")`. -/
def lambdaReady (c : LambdaCfg) : Bool :=
  cfgState c = "Active" &&
    (cfgLastUpdate c = "Successful" || cfgLastUpdate c = "Unknown")

/-- The `TimeoutError` raised by `wait_lambda_ready`: its message
interpolates the timeout and the last observed `State` and
`LastUpdateStatus`; `elapsedS` is the discrete time of the raise
(2 seconds per completed `time.sleep(2)`, provider calls instantaneous). -/
structure LambdaTimeout where
  timeoutS : Nat
  state : String
  lastUpdateStatus : String
  elapsedS : Nat
deriving DecidableEq, Repr

/-- The `while True` loop of `wait_lambda_ready`. `cfg k` is the
configuration observed by the `(k+1)`-th `get_function_configuration`
call; at that point `time.time() - t0 = 2 * k` (k sleeps completed).
`fuel` bounds the unbounded Python loop; `none` means the bound was hit
before the loop exited. -/
def waitLambdaReadyAux (cfg : Nat → LambdaCfg) (timeoutS : Nat) :
    Nat → Nat → Option (Except LambdaTimeout Unit)
  | _, 0 => none
  | k, fuel + 1 =>
    if lambdaReady (cfg k) then some (.ok ())
    else if 2 * k > timeoutS then
      some (.error ⟨timeoutS, cfgState (cfg k), cfgLastUpdate (cfg k), 2 * k⟩)
    else waitLambdaReadyAux cfg timeoutS (k + 1) fuel

/-- `wait_lambda_ready(lambda_client, function_name, timeout_s=120)` from
`infra/deploy.py`, with the observation sequence abstracted as `cfg`. -/
def wait_lambda_ready (cfg : Nat → LambdaCfg) (timeoutS fuel : Nat) :
    Option (Except LambdaTimeout Unit) :=
  waitLambdaReadyAux cfg timeoutS 0 fuel

end Deploy

namespace Deploy

lemma callWithRetriesAux_attempts_le {α : Type} (fn : Nat → Except PyErr α)
    (s : Nat) :
    ∀ (r i att slept : Nat) (lastExc : Option PyErr),
      (callWithRetriesAux fn s i r lastExc att slept).attempts ≤ att + r := by
  intro r
  induction r with
  | zero => intro i att slept lastExc; exact Nat.le_refl _
  | succ r ih =>
    intro i att slept lastExc
    simp only [callWithRetriesAux]
    cases h : fn i with
    | ok v => show att + 1 ≤ att + (r + 1); omega
    | error e =>
      by_cases hr : retriesOn e = true
      · simp only [hr, if_true]
        have := ih (i + 1) (att + 1) (slept + s) (some e)
        omega
      · simp only [hr, if_false]
        show att + 1 ≤ att + (r + 1); omega

lemma callWithRetriesAux_ok_after {α : Type} (fn : Nat → Except PyErr α)
    (s : Nat) (E : Nat → PyErr) (v : α) :
    ∀ (j r i att slept : Nat) (lastExc : Option PyErr),
      (∀ k, k < j → fn (i + k) = .error (E (i + k)) ∧
        retriesOn (E (i + k)) = true) →
      fn (i + j) = .ok v → j < r →
      callWithRetriesAux fn s i r lastExc att slept =
        ⟨.ok v, att + j + 1, slept + s * j⟩ := by
  intro j
  induction j with
  | zero =>
    intro r i att slept lastExc _ hok hr
    obtain ⟨r', rfl⟩ := Nat.exists_eq_add_of_lt hr
    rw [Nat.add_zero] at hok
    simp [callWithRetriesAux, hok]
  | succ j ih =>
    intro r i att slept lastExc hfail hok hr
    obtain ⟨r', rfl⟩ := Nat.exists_eq_add_of_lt hr
    have h0 := hfail 0 (Nat.succ_pos j)
    rw [Nat.add_zero] at h0
    simp only [callWithRetriesAux, h0.1, h0.2, if_true]
    have hrec := ih (j + 1 + r') (i + 1) (att + 1) (slept + s) (some (E i))
      (fun k hk => by
        have h := hfail (k + 1) (by omega)
        have hidx : i + 1 + k = i + (k + 1) := by omega
        rw [hidx]; exact h)
      (by
        have hidx : i + 1 + j = i + (j + 1) := by omega
        rw [hidx]; exact hok)
      (by omega)
    have ha : att + 1 + j + 1 = att + (j + 1) + 1 := by omega
    have hs : slept + s + s * j = slept + s * (j + 1) := by ring
    rw [ha, hs] at hrec
    exact hrec

lemma callWithRetriesAux_raise_after {α : Type} (fn : Nat → Except PyErr α)
    (s : Nat) (E : Nat → PyErr) (e : PyErr) :
    ∀ (j r i att slept : Nat) (lastExc : Option PyErr),
      (∀ k, k < j → fn (i + k) = .error (E (i + k)) ∧
        retriesOn (E (i + k)) = true) →
      fn (i + j) = .error e → retriesOn e = false → j < r →
      callWithRetriesAux fn s i r lastExc att slept =
        ⟨.error (.exc e), att + j + 1, slept + s * j⟩ := by
  intro j
  induction j with
  | zero =>
    intro r i att slept lastExc _ herr hnr hr
    obtain ⟨r', rfl⟩ := Nat.exists_eq_add_of_lt hr
    rw [Nat.add_zero] at herr
    simp [callWithRetriesAux, herr, hnr]
  | succ j ih =>
    intro r i att slept lastExc hfail herr hnr hr
    obtain ⟨r', rfl⟩ := Nat.exists_eq_add_of_lt hr
    have h0 := hfail 0 (Nat.succ_pos j)
    rw [Nat.add_zero] at h0
    simp only [callWithRetriesAux, h0.1, h0.2, if_true]
    have hrec := ih (j + 1 + r') (i + 1) (att + 1) (slept + s) (some (E i))
      (fun k hk => by
        have h := hfail (k + 1) (by omega)
        have hidx : i + 1 + k = i + (k + 1) := by omega
        rw [hidx]; exact h)
      (by
        have hidx : i + 1 + j = i + (j + 1) := by omega
        rw [hidx]; exact herr)
      hnr (by omega)
    have ha : att + 1 + j + 1 = att + (j + 1) + 1 := by omega
    have hs : slept + s + s * j = slept + s * (j + 1) := by ring
    rw [ha, hs] at hrec
    exact hrec

lemma callWithRetriesAux_exhaust {α : Type} (fn : Nat → Except PyErr α)
    (s : Nat) (E : Nat → PyErr) :
    ∀ (r i att slept : Nat) (lastExc : Option PyErr), 0 < r →
      (∀ k, k < r → fn (i + k) = .error (E (i + k)) ∧
        retriesOn (E (i + k)) = true) →
      callWithRetriesAux fn s i r lastExc att slept =
        ⟨.error (.exc (E (i + r - 1))), att + r, slept + s * r⟩ := by
  intro r
  induction r with
  | zero => intro i att slept lastExc h; omega
  | succ r ih =>
    intro i att slept lastExc _ hfail
    have h0 := hfail 0 (Nat.succ_pos r)
    rw [Nat.add_zero] at h0
    simp only [callWithRetriesAux, h0.1, h0.2, if_true]
    cases Nat.eq_zero_or_pos r with
    | inl hz =>
      subst hz
      simp only [callWithRetriesAux]
      have hi : i + (0 + 1) - 1 = i := by omega
      have hs : slept + s * (0 + 1) = slept + s := by ring
      have ha : att + (0 + 1) = att + 1 := by omega
      rw [hi, hs, ha]
    | inr hpos =>
      have hrec := ih (i + 1) (att + 1) (slept + s) (some (E i)) hpos
        (fun k hk => by
          have h := hfail (k + 1) (by omega)
          have hidx : i + 1 + k = i + (k + 1) := by omega
          rw [hidx]; exact h)
      have hi : i + 1 + r - 1 = i + (r + 1) - 1 := by omega
      have ha : att + 1 + r = att + (r + 1) := by omega
      have hs : slept + s + s * r = slept + s * (r + 1) := by ring
      rw [hi, ha, hs] at hrec
      exact hrec

end Deploy

namespace Deploy

lemma waitLambdaReadyAux_never (cfg : Nat → LambdaCfg) (T : Nat)
    (hnever : ∀ j, lambdaReady (cfg j) = false) :
    ∀ (fuel k : Nat), k ≤ T / 2 + 1 → T / 2 + 2 ≤ fuel + k →
      waitLambdaReadyAux cfg T k fuel =
        some (.error ⟨T, cfgState (cfg (T / 2 + 1)),
          cfgLastUpdate (cfg (T / 2 + 1)), 2 * (T / 2 + 1)⟩) := by
  intro fuel
  induction fuel with
  | zero => intro k hk hf; omega
  | succ fuel ih =>
    intro k hk hf
    by_cases h2 : 2 * k > T
    · have hkk : k = T / 2 + 1 := by omega
      subst hkk
      simp [waitLambdaReadyAux, hnever (T / 2 + 1), h2]
    · have hrec := ih (k + 1) (by omega) (by omega)
      simp [waitLambdaReadyAux, hnever k, h2, hrec]

end Deploy

/-- Operation whose first call raises a non-`ClientError` exception and
whose second call succeeds; input refuting the literal reading of C1. -/
def c1CexFn : Nat → Except PyErr Nat :=
  fun i => if i = 0 then .error (.otherError "boom") else .ok 42

/-- C1, counterexample. The claim says every failure outside the
resource-conflict/throttling `ClientError` class is propagated immediately
with no further attempt; but on an operation whose first call raises a
generic (non-`ClientError`) exception the wrapper sleeps, retries, and
returns the second call's value after 2 attempts instead of propagating. -/
theorem claim_C1_counterexample :
    Deploy.call_with_retries c1CexFn 8 2 = ⟨.ok 42, 2, 2⟩ ∧
    (Deploy.call_with_retries c1CexFn 8 2).attempts ≠ 1 :=
  ⟨rfl, by decide⟩

/-- C1 (amended): `call_with_retries` makes at most 8 attempts and waits
2 seconds between attempts; it retries on the transient-conflict
`ClientError` class (resource-conflict and throttling codes) and also on
any non-`ClientError` failure; a `ClientError` outside that class is
propagated immediately without any further attempt; after exhausting all
8 attempts it propagates the last failure observed. `E k` names the
exception raised by the `(k+1)`-th call when that call fails. -/
theorem claim_C1_call_with_retries {α : Type} (fn : Nat → Except PyErr α)
    (E : Nat → PyErr) :
    ((Deploy.call_with_retries fn 8 2).attempts ≤ 8) ∧
    (∀ j v, j < 8 →
      (∀ k, k < j → fn k = .error (E k) ∧ Deploy.retriesOn (E k) = true) →
      fn j = .ok v →
      Deploy.call_with_retries fn 8 2 = ⟨.ok v, j + 1, 2 * j⟩) ∧
    (∀ j e, j < 8 →
      (∀ k, k < j → fn k = .error (E k) ∧ Deploy.retriesOn (E k) = true) →
      fn j = .error e → Deploy.retriesOn e = false →
      Deploy.call_with_retries fn 8 2 = ⟨.error (.exc e), j + 1, 2 * j⟩) ∧
    ((∀ k, k < 8 → fn k = .error (E k) ∧ Deploy.retriesOn (E k) = true) →
      Deploy.call_with_retries fn 8 2 = ⟨.error (.exc (E 7)), 8, 16⟩) := by
  refine ⟨?_, ?_, ?_, ?_⟩
  · have h := Deploy.callWithRetriesAux_attempts_le fn 2 8 0 0 0 none
    simpa [Deploy.call_with_retries] using h
  · intro j v hj hfail hok
    have h := Deploy.callWithRetriesAux_ok_after fn 2 E v j 8 0 0 0 none
      (fun k hk => by rw [Nat.zero_add]; exact hfail k hk)
      (by rw [Nat.zero_add]; exact hok) hj
    simpa [Deploy.call_with_retries] using h
  · intro j e hj hfail herr hnr
    have h := Deploy.callWithRetriesAux_raise_after fn 2 E e j 8 0 0 0 none
      (fun k hk => by rw [Nat.zero_add]; exact hfail k hk)
      (by rw [Nat.zero_add]; exact herr) hnr hj
    simpa [Deploy.call_with_retries] using h
  · intro hfail
    have h := Deploy.callWithRetriesAux_exhaust fn 2 E 8 0 0 0 none
      (by omega)
      (fun k hk => by rw [Nat.zero_add]; exact hfail k hk)
    simpa [Deploy.call_with_retries] using h

/-- Operation that fails with a throttling `ClientError` on all 8 attempts;
drives the witness for the amended C1 theorem. -/
def c1AllThrottledFn : Nat → Except PyErr Nat :=
  fun _ => .error (.clientError "TooManyRequestsException")

/-- C1, witness: at the always-throttled operation the amended theorem's
exhaustion part yields the last failure after 8 attempts and 16 seconds
of backoff. -/
theorem claim_C1_call_with_retries_witness :
    Deploy.call_with_retries c1AllThrottledFn 8 2 =
      ⟨.error (.exc (.clientError "TooManyRequestsException")), 8, 16⟩ :=
  (claim_C1_call_with_retries c1AllThrottledFn
    (fun _ => .clientError "TooManyRequestsException")).2.2.2
    (fun _ _ => ⟨rfl, rfl⟩)

/-- C6: on a function whose configuration never satisfies the readiness
predicate, `wait_lambda_ready` raises `TimeoutError` once the discrete
elapsed time first exceeds `timeout_s` — strictly after the configured
duration but by at most one extra 2-second poll — and the error carries
the last observed `State` and `LastUpdateStatus`. -/
theorem claim_C6_wait_lambda_ready (cfg : Nat → Deploy.LambdaCfg)
    (T fuel : Nat)
    (hnever : ∀ j, Deploy.lambdaReady (cfg j) = false)
    (hfuel : T / 2 + 2 ≤ fuel) :
    Deploy.wait_lambda_ready cfg T fuel =
      some (.error ⟨T, Deploy.cfgState (cfg (T / 2 + 1)),
        Deploy.cfgLastUpdate (cfg (T / 2 + 1)), 2 * (T / 2 + 1)⟩) ∧
    T < 2 * (T / 2 + 1) ∧ 2 * (T / 2 + 1) ≤ T + 2 := by
  refine ⟨?_, by omega, by omega⟩
  exact Deploy.waitLambdaReadyAux_never cfg T hnever fuel 0 (by omega)
    (by omega)

/-- A configuration sequence that is never ready (stuck in `Pending`). -/
def neverReadyCfg : Nat → Deploy.LambdaCfg :=
  fun _ => ⟨some "Pending", some "InProgress"⟩

/-- C6, witness: with the default 120-second timeout the poller times out
at discrete elapsed time 122 seconds, carrying state `Pending`. -/
theorem claim_C6_wait_lambda_ready_witness :
    Deploy.wait_lambda_ready neverReadyCfg 120 62 =
      some (.error ⟨120, "Pending", "InProgress", 122⟩) ∧
    120 < 122 ∧ 122 ≤ 122 := by
  have h := claim_C6_wait_lambda_ready neverReadyCfg 120 62
    (fun j => rfl) (by norm_num)
  exact ⟨h.1, by norm_num, by norm_num⟩

namespace Deploy

/-- The `StreamSpecification` entry of a `describe_table` result. -/
structure StreamSpec where
  streamEnabled : Bool
  streamViewType : String
deriving DecidableEq, Repr

/-- The `Table` description returned by `describe_table`, restricted to the
keys `ensure_ddb_table_with_stream` reads. -/
structure DdbTable where
  streamSpec : Option StreamSpec
  latestStreamArn : Option String
deriving DecidableEq, Repr

/-- State of the DynamoDB service for the one table name the function
manages: `none` when the table does not exist. -/
structure DdbState where
  table : Option DdbTable
deriving DecidableEq, Repr

/-- `ddb.describe_table(TableName=...)`: the description, or
`ResourceNotFoundException` when the table is absent. -/
def ddbDescribeTable (s : DdbState) : Except ClientErr DdbTable :=
  match s.table with
  | some t => .ok t
  | none => .error ⟨"ResourceNotFoundException"⟩

/-- `ddb.create_table(..., StreamSpecification={"StreamEnabled": True,
"StreamViewType": "NEW_IMAGE"})`: fails with `ResourceInUseException` when
the table already exists; the new table carries a fresh stream ARN. -/
def ddbCreateTable (s : DdbState) (freshArn : String) :
    Except ClientErr DdbState :=
  match s.table with
  | some _ => .error ⟨"ResourceInUseException"⟩
  | none => .ok ⟨some ⟨some ⟨true, "NEW_IMAGE"⟩, some freshArn⟩⟩

/-- `ddb.update_table(..., StreamSpecification={"StreamEnabled": True,
"StreamViewType": "NEW_IMAGE"})`: enabling the stream creates a new
stream, so the table's latest stream ARN becomes the fresh one. -/
def ddbUpdateTable (s : DdbState) (freshArn : String) :
    Except ClientErr DdbState :=
  match s.table with
  | none => .error ⟨"ResourceNotFoundException"⟩
  | some _ => .ok ⟨some ⟨some ⟨true, "NEW_IMAGE"⟩, some freshArn⟩⟩

/-- The enabled test of `ensure_ddb_table_with_stream`:
`stream_spec = table.get("StreamSpecification") or {}` followed by
`stream_spec.get("StreamEnabled")` under `if not ...`. -/
def tableStreamEnabled (t : DdbTable) : Bool :=
  (t.streamSpec.map (·.streamEnabled)).getD false

/-- Outcome of one run of `ensure_ddb_table_with_stream`: the returned
`table.get("LatestStreamArn")` (or the propagated exception), the final
service state, and how many `create_table` / `update_table` calls ran. -/
structure EnsureTableRun where
  result : Except ClientErr (Option String)
  state : DdbState
  createCalls : Nat
  updateCalls : Nat
deriving Repr

/-- The second half of `ensure_ddb_table_with_stream`: enable the stream
via `update_table` when the described table lacks it, then re-describe and
return `table.get("LatestStreamArn")`. -/
def ensureStreamStep (s : DdbState) (table : DdbTable) (freshArn : String)
    (creates : Nat) : EnsureTableRun :=
  if tableStreamEnabled table then
    ⟨.ok table.latestStreamArn, s, creates, 0⟩
  else
    match ddbUpdateTable s freshArn with
    | .error e => ⟨.error e, s, creates, 1⟩
    | .ok s' =>
      match ddbDescribeTable s' with
      | .error e => ⟨.error e, s', creates, 1⟩
      | .ok table' => ⟨.ok table'.latestStreamArn, s', creates, 1⟩

/-- `ensure_ddb_table_with_stream(ddb, table_name)` from `infra/deploy.py`:
describe the table, creating it (stream enabled, `NEW_IMAGE`) on
`ResourceNotFoundException`; then enable the stream in place if it is
still disabled; return `table.get("LatestStreamArn")`. `freshArn` is the
ARN the provider assigns to a newly created stream. -/
def ensure_ddb_table_with_stream (s : DdbState) (freshArn : String) :
    EnsureTableRun :=
  match ddbDescribeTable s with
  | .ok table => ensureStreamStep s table freshArn 0
  | .error e =>
    if e.code = "ResourceNotFoundException" then
      match ddbCreateTable s freshArn with
      | .error e' => ⟨.error e', s, 1, 0⟩
      | .ok s' =>
        match ddbDescribeTable s' with
        | .error e' => ⟨.error e', s', 1, 0⟩
        | .ok table => ensureStreamStep s' table freshArn 1
    else ⟨.error e, s, 0, 0⟩

end Deploy

/-- C2: `ensure_ddb_table_with_stream` never fails, whatever the starting
state; when the table exists without its change stream it enables the
stream via `update_table` in place (no `create_table` call) and returns
the new stream ARN; when the table is absent it creates it once; when the
table already has its stream it changes nothing and returns the existing
`LatestStreamArn`. -/
theorem claim_C2_ensure_ddb_table_with_stream (s : Deploy.DdbState)
    (arn : String) :
    ((Deploy.ensure_ddb_table_with_stream s arn).result.isOk = true) ∧
    (∀ t, s.table = some t → Deploy.tableStreamEnabled t = false →
      Deploy.ensure_ddb_table_with_stream s arn =
        ⟨.ok (some arn), ⟨some ⟨some ⟨true, "NEW_IMAGE"⟩, some arn⟩⟩, 0, 1⟩) ∧
    (s.table = none →
      Deploy.ensure_ddb_table_with_stream s arn =
        ⟨.ok (some arn), ⟨some ⟨some ⟨true, "NEW_IMAGE"⟩, some arn⟩⟩, 1, 0⟩) ∧
    (∀ t, s.table = some t → Deploy.tableStreamEnabled t = true →
      Deploy.ensure_ddb_table_with_stream s arn =
        ⟨.ok t.latestStreamArn, s, 0, 0⟩) := by
  obtain ⟨tbl⟩ := s
  cases tbl with
  | none =>
    refine ⟨?_, ?_, ?_, ?_⟩
    · simp [Deploy.ensure_ddb_table_with_stream, Deploy.ddbDescribeTable,
        Deploy.ddbCreateTable, Deploy.ensureStreamStep,
        Deploy.tableStreamEnabled, Except.isOk, Except.toBool]
    · intro t ht; exact absurd ht (by simp)
    · intro _
      simp [Deploy.ensure_ddb_table_with_stream, Deploy.ddbDescribeTable,
        Deploy.ddbCreateTable, Deploy.ensureStreamStep,
        Deploy.tableStreamEnabled]
    · intro t ht; exact absurd ht (by simp)
  | some t =>
    by_cases hen : Deploy.tableStreamEnabled t = true
    · refine ⟨?_, ?_, ?_, ?_⟩
      · simp [Deploy.ensure_ddb_table_with_stream, Deploy.ddbDescribeTable,
          Deploy.ensureStreamStep, hen, Except.isOk, Except.toBool]
      · intro t' ht' hdis
        rw [Option.some.injEq] at ht'
        subst ht'
        rw [hen] at hdis
        exact absurd hdis (by simp)
      · intro h; exact absurd h (by simp)
      · intro t' ht' _
        rw [Option.some.injEq] at ht'
        subst ht'
        simp [Deploy.ensure_ddb_table_with_stream, Deploy.ddbDescribeTable,
          Deploy.ensureStreamStep, hen]
    · rw [Bool.not_eq_true] at hen
      refine ⟨?_, ?_, ?_, ?_⟩
      · simp [Deploy.ensure_ddb_table_with_stream, Deploy.ddbDescribeTable,
          Deploy.ensureStreamStep, Deploy.ddbUpdateTable, hen, Except.isOk, Except.toBool]
      · intro t' ht' _
        rw [Option.some.injEq] at ht'
        subst ht'
        simp [Deploy.ensure_ddb_table_with_stream, Deploy.ddbDescribeTable,
          Deploy.ensureStreamStep, Deploy.ddbUpdateTable, hen]
      · intro h; exact absurd h (by simp)
      · intro t' ht' hen'
        rw [Option.some.injEq] at ht'
        subst ht'
        rw [hen'] at hen
        exact absurd hen (by simp)

/-- A table present with its change stream disabled; drives the C2
witness. -/
def c2DisabledTable : Deploy.DdbState :=
  ⟨some ⟨some ⟨false, "NEW_IMAGE"⟩, none⟩⟩

/-- C2, witness: on a table whose stream is disabled, the ensurer updates
it in place (no create, one update) and returns the fresh stream ARN. -/
theorem claim_C2_ensure_ddb_table_with_stream_witness :
    Deploy.ensure_ddb_table_with_stream c2DisabledTable "arn0" =
      ⟨.ok (some "arn0"),
        ⟨some ⟨some ⟨true, "NEW_IMAGE"⟩, some "arn0"⟩⟩, 0, 1⟩ :=
  (claim_C2_ensure_ddb_table_with_stream c2DisabledTable "arn0").2.1
    ⟨some ⟨false, "NEW_IMAGE"⟩, none⟩ rfl rfl

/-- Digit run of a Python integer literal: `none` unless the character
list is a nonempty run of decimal digits. -/
def pyDigits (ds : List Char) : Option Nat :=
  match ds with
  | [] => none
  | _ =>
    if ds.all (·.isDigit) then
      some (ds.foldl (fun a c => a * 10 + (c.toNat - 48)) 0)
    else none

/-- Leading- and trailing-whitespace removal on a character list, the
effect of Python `str.strip()` (and of the whitespace tolerance inside
`int(str)`). -/
def pyStripChars (cs : List Char) : List Char :=
  ((cs.dropWhile Char.isWhitespace).reverse.dropWhile Char.isWhitespace).reverse

/-- Python `int(str)` on the strings this repository feeds it: optional
surrounding whitespace, an optional sign, then decimal digits; anything
else raises `ValueError`, modelled as `none`. Digit-grouping underscores
are not modelled. -/
def pyInt (s : String) : Option Int :=
  match pyStripChars s.toList with
  | [] => none
  | '-' :: ds => (pyDigits ds).map (fun n => -(n : Int))
  | '+' :: ds => (pyDigits ds).map (fun n => (n : Int))
  | ds => (pyDigits ds).map (fun n => (n : Int))

namespace NotifyLowStock

/-- A DynamoDB stream attribute value: a dict holding `"S"` and/or `"N"`;
both `none` models the empty dict. -/
structure AttrVal where
  s : Option String
  n : Option String
deriving DecidableEq, Repr

/-- The `NewImage` dict of a stream record, restricted to the keys
`"Store"`, `"Item"` and `"Count"` that the handler reads. -/
structure NewImage where
  store : Option AttrVal
  item : Option AttrVal
  count : Option AttrVal
deriving DecidableEq, Repr

/-- The `dynamodb` entry of a stream record, restricted to `"NewImage"`. -/
structure DdbEntry where
  newImage : Option NewImage
deriving DecidableEq, Repr

/-- One entry of `event["Records"]` as the notify handler reads it. -/
structure StreamRecord where
  eventName : Option String
  dynamodb : Option DdbEntry
deriving DecidableEq, Repr

/-- `(r.get("dynamodb") or {}).get("NewImage")`. A truthy nonempty
`dynamodb` dict without `NewImage` and the falsy empty dict both yield
`None`, so the `or {}` collapses into one `Option` step. -/
def recNewImage (r : StreamRecord) : Option NewImage :=
  match r.dynamodb with
  | none => none
  | some d => d.newImage

/-- `(attr or {}).get("S")`. -/
def attrS (a : Option AttrVal) : Option String :=
  match a with
  | none => none
  | some v => v.s

/-- `(attr or {}).get("N")`. -/
def attrN (a : Option AttrVal) : Option String :=
  match a with
  | none => none
  | some v => v.n

/-- One `sns.publish` call: the subject string and the fields of the
JSON-encoded low-stock message. -/
structure SnsPublish where
  subject : String
  store : String
  item : String
  count : Int
  threshold : Int
deriving DecidableEq, Repr

/-- The return dict `{"ok": True, "alerts_sent": alerts}` together with
the messages published while the loop ran. -/
structure NotifyResult where
  published : List SnsPublish
  alertsSent : Nat
deriving DecidableEq, Repr

/-- The body of the notify handler's `for r in records` loop: `none` when
the iteration hits a `continue` (wrong event name, missing new image,
missing store/item/count, unparseable count, count above threshold),
otherwise the publish it performs. An empty `NewImage` dict fails the
`if not new_img` test in the source; it is modelled by the subsequent
`is None` checks, which skip it identically. -/
def processRecord (threshold : Int) (r : StreamRecord) : Option SnsPublish :=
  if ¬(r.eventName = some "INSERT" ∨ r.eventName = some "MODIFY") then none
  else
    match recNewImage r with
    | none => none
    | some img =>
      match attrS img.store, attrS img.item, attrN img.count with
      | some store, some item, some countStr =>
        (match pyInt countStr with
        | none => none
        | some count =>
          if count ≤ threshold then
            some ⟨"Low stock: " ++ store ++ " - " ++ item,
              store, item, count, threshold⟩
          else none)
      | _, _, _ => none

/-- `lambda_handler(event, context)` of
`lambdas/notify_low_stock/lambda_function.py`: iterate over
`event["Records"]`, publish a low-stock message per qualifying record,
and return the alert count. -/
def lambda_handler (threshold : Int) (records : List StreamRecord) :
    NotifyResult :=
  records.foldl
    (fun acc r =>
      match processRecord threshold r with
      | some msg => ⟨acc.published ++ [msg], acc.alertsSent + 1⟩
      | none => acc)
    ⟨[], 0⟩

/-- `(new_img.get("Store") or {}).get("S")` reached through the record. -/
def recStoreS (r : StreamRecord) : Option String :=
  match recNewImage r with
  | none => none
  | some img => attrS img.store

/-- `(new_img.get("Item") or {}).get("S")` reached through the record. -/
def recItemS (r : StreamRecord) : Option String :=
  match recNewImage r with
  | none => none
  | some img => attrS img.item

/-- `(new_img.get("Count") or {}).get("N")` reached through the record. -/
def recCountN (r : StreamRecord) : Option String :=
  match recNewImage r with
  | none => none
  | some img => attrN img.count

/-- The record condition of the amended claim C3, written as a flat
conjunction: event name `INSERT` or `MODIFY`, new image carrying store
and item strings, and a count string parsing to an integer at or below
the threshold. -/
def shouldAlertSpec (threshold : Int) (r : StreamRecord) : Bool :=
  (r.eventName == some "INSERT" || r.eventName == some "MODIFY") &&
    (recStoreS r).isSome && (recItemS r).isSome &&
    (match (recCountN r).bind pyInt with
    | some c => decide (c ≤ threshold)
    | none => false)

/-- The record condition as claim C3 literally states it: event name
`INSERT` or `MODIFY` and a new-image count at or below the threshold —
with no requirement on store or item. -/
def claimC3Condition (threshold : Int) (r : StreamRecord) : Bool :=
  (r.eventName == some "INSERT" || r.eventName == some "MODIFY") &&
    (match (recCountN r).bind pyInt with
    | some c => decide (c ≤ threshold)
    | none => false)

end NotifyLowStock

namespace NotifyLowStock

/-- The record condition of the amended claim C3 in propositional form:
event name `INSERT` or `MODIFY`, a new image carrying store and item
strings, and a count string parsing to an integer at or below the
threshold. -/
def ShouldAlert (threshold : Int) (r : StreamRecord) : Prop :=
  (r.eventName = some "INSERT" ∨ r.eventName = some "MODIFY") ∧
  ∃ store item cs c, recStoreS r = some store ∧ recItemS r = some item ∧
    recCountN r = some cs ∧ pyInt cs = some c ∧ c ≤ threshold

lemma handlerFold (threshold : Int) :
    ∀ (rs : List StreamRecord) (acc : NotifyResult),
      rs.foldl
        (fun acc r =>
          match processRecord threshold r with
          | some msg => ⟨acc.published ++ [msg], acc.alertsSent + 1⟩
          | none => acc) acc =
      ⟨acc.published ++ rs.filterMap (processRecord threshold),
        acc.alertsSent + (rs.filterMap (processRecord threshold)).length⟩ := by
  intro rs
  induction rs with
  | nil => intro acc; simp
  | cons r rs ih =>
    intro acc
    cases h : processRecord threshold r with
    | none => simp [List.foldl_cons, h, ih]
    | some msg =>
      simp [List.foldl_cons, h, ih]
      omega

lemma processRecord_isSome_iff (threshold : Int) (r : StreamRecord) :
    (processRecord threshold r).isSome = true ↔ ShouldAlert threshold r := by
  obtain ⟨ev, dyn⟩ := r
  cases dyn with
  | none => simp [processRecord, ShouldAlert, recStoreS, recNewImage]
  | some d =>
    obtain ⟨ni⟩ := d
    cases ni with
    | none => simp [processRecord, ShouldAlert, recStoreS, recNewImage]
    | some img =>
      obtain ⟨sta, ita, cta⟩ := img
      simp only [processRecord, ShouldAlert, recStoreS, recItemS, recCountN,
        recNewImage]
      rcases hs : attrS sta with _ | store
      · simp [hs]
      · rcases hi : attrS ita with _ | item
        · simp [hs, hi]
        · rcases hc : attrN cta with _ | cs
          · simp [hs, hi, hc]
          · simp only [hs, hi, hc]
            rcases hp : pyInt cs with _ | c
            · simp [hp]
            · by_cases hev : ev = some "INSERT" ∨ ev = some "MODIFY"
              · rw [if_neg (not_not_intro hev)]
                simp only [hp]
                by_cases hct : c ≤ threshold
                · rw [if_pos hct]
                  simp only [Option.isSome_some, true_iff]
                  exact ⟨hev, store, item, cs, c, rfl, rfl, rfl, hp, hct⟩
                · rw [if_neg hct]
                  simp only [Option.isSome_none, Bool.false_eq_true, false_iff]
                  rintro ⟨-, st', it', cs', c', -, -, h3, h4, h5⟩
                  rw [Option.some.injEq] at h3
                  subst h3
                  rw [hp, Option.some.injEq] at h4
                  subst h4
                  exact hct h5
              · rw [if_pos hev]
                simp only [Option.isSome_none, Bool.false_eq_true, false_iff]
                rintro ⟨hab, -⟩
                exact hev hab

end NotifyLowStock

/-- A stream record with event name `INSERT` whose new image holds only a
count (`1`) and neither store nor item; input refuting the literal
reading of C3. -/
def c3CexRecord : NotifyLowStock.StreamRecord :=
  ⟨some "INSERT", some ⟨some ⟨none, none, some ⟨none, some "1"⟩⟩⟩⟩

/-- C3, counterexample. The claim's condition (event `INSERT` or `MODIFY`
and new-image count at or below the threshold) holds of this record at
threshold 2, yet the handler publishes nothing and returns 0 alerts,
because the new image carries no store or item. -/
theorem claim_C3_counterexample :
    NotifyLowStock.claimC3Condition 2 c3CexRecord = true ∧
    NotifyLowStock.lambda_handler 2 [c3CexRecord] = ⟨[], 0⟩ :=
  ⟨rfl, rfl⟩

/-- An `INSERT` record with store `Berlin`, item `bread`, count `1`. -/
def c3InsertBerlin : NotifyLowStock.StreamRecord :=
  ⟨some "INSERT", some ⟨some ⟨some ⟨some "Berlin", none⟩,
    some ⟨some "bread", none⟩, some ⟨none, some "1"⟩⟩⟩⟩

/-- A `REMOVE` record with store `Berlin`, item `bread`, and an arbitrary
count string. -/
def c3RemoveBerlin (cs : String) : NotifyLowStock.StreamRecord :=
  ⟨some "REMOVE", some ⟨some ⟨some ⟨some "Berlin", none⟩,
    some ⟨some "bread", none⟩, some ⟨none, some cs⟩⟩⟩⟩

/-- C3 (amended): over any batch, the notify handler publishes one
message per record whose event name is `INSERT` or `MODIFY` and whose new
image carries store and item strings and a count parsing to an integer at
or below the threshold — exactly those records — and returns the number
of messages published. In particular, with threshold 2, an `INSERT`
record with count 1 produces exactly one publish, and a `REMOVE` record
produces none regardless of its count. -/
theorem claim_C3_notify_low_stock (threshold : Int)
    (records : List NotifyLowStock.StreamRecord) :
    ((NotifyLowStock.lambda_handler threshold records).published =
      records.filterMap (NotifyLowStock.processRecord threshold)) ∧
    ((NotifyLowStock.lambda_handler threshold records).alertsSent =
      (NotifyLowStock.lambda_handler threshold records).published.length) ∧
    (∀ r, (NotifyLowStock.processRecord threshold r).isSome = true ↔
      NotifyLowStock.ShouldAlert threshold r) ∧
    (NotifyLowStock.lambda_handler 2 [c3InsertBerlin] =
      ⟨[⟨"Low stock: Berlin - bread", "Berlin", "bread", 1, 2⟩], 1⟩) ∧
    (∀ cs : String,
      NotifyLowStock.lambda_handler 2 [c3RemoveBerlin cs] = ⟨[], 0⟩) := by
  refine ⟨?_, ?_, NotifyLowStock.processRecord_isSome_iff threshold, rfl, ?_⟩
  · rw [NotifyLowStock.lambda_handler, NotifyLowStock.handlerFold]
    simp
  · rw [NotifyLowStock.lambda_handler, NotifyLowStock.handlerFold]
    simp
  · intro cs
    simp [NotifyLowStock.lambda_handler, NotifyLowStock.processRecord,
      c3RemoveBerlin]

/-- `str.strip()`. -/
def pyStrip (s : String) : String := String.mk (pyStripChars s.toList)

namespace LoadInventory

/-- One row produced by `csv.DictReader`: header name → field value.
CSV text parsing is modelled at this row level. -/
def Row : Type := List (String × String)

/-- Python `row.get(k)` on a `DictReader` row. -/
def rowGet (row : Row) (k : String) : Option String :=
  (List.find? (fun p => p.1 == k) row).map (·.2)

/-- Python `a or b` where `a` is a `dict.get` result: `None` and the
empty string are falsy and fall through to `b`. -/
def pyOrStr (a : Option String) (b : String) : String :=
  match a with
  | none => b
  | some s => if s = "" then b else s

/-- `(row.get("store") or row.get("Store") or "").strip()`. -/
def rowStore (row : Row) : String :=
  pyStrip (pyOrStr (rowGet row "store") (pyOrStr (rowGet row "Store") ""))

/-- `(row.get("item") or row.get("Item") or "").strip()`. -/
def rowItem (row : Row) : String :=
  pyStrip (pyOrStr (rowGet row "item") (pyOrStr (rowGet row "Item") ""))

/-- `(row.get("count") or row.get("Count") or "0").strip()`. -/
def rowCountRaw (row : Row) : String :=
  pyStrip (pyOrStr (rowGet row "count") (pyOrStr (rowGet row "Count") "0"))

/-- The item passed to `batch.put_item`:
`{"Store": store, "Item": item, "Count": count}`. -/
structure InvItem where
  store : String
  item : String
  count : Int
deriving DecidableEq, Repr

/-- The body of the `for row in reader` loop: `none` when the row is
skipped (`if not store or not item: continue`), otherwise the written
item, with `count = 0` when `int(count_raw)` raises `ValueError`. -/
def processRow (row : Row) : Option InvItem :=
  if rowStore row = "" ∨ rowItem row = "" then none
  else some ⟨rowStore row, rowItem row, (pyInt (rowCountRaw row)).getD 0⟩

/-- A JSON value in the handler's return dict. -/
inductive JVal where
  | jb (b : Bool)
  | js (s : String)
  | jn (n : Nat)
deriving DecidableEq, Repr

/-- Python `dict.get(k)` on the returned body. -/
def bodyGet (body : List (String × JVal)) (k : String) : Option JVal :=
  (List.find? (fun p => p.1 == k) body).map (·.2)

/-- One entry of `event["Records"]`, restricted to
`r["s3"]["bucket"]["name"]` and `r["s3"]["object"]["key"]`. -/
structure S3Rec where
  bucket : String
  key : String
deriving DecidableEq, Repr

/-- Outcome of one run of the ingestion handler: the returned dict, the
number of `get_object` downloads performed, and the items written. -/
structure LoadRun where
  body : List (String × JVal)
  downloads : Nat
  writes : List InvItem
deriving DecidableEq, Repr

/-- The per-object loop body: the items written for one downloaded CSV
object and the number of `total_written += 1` increments. -/
def loadRecordStep (rows : List Row) : List InvItem × Nat :=
  rows.foldl
    (fun acc row =>
      match processRow row with
      | some it => (acc.1 ++ [it], acc.2 + 1)
      | none => acc)
    ([], 0)

/-- `lambda_handler(event, context)` of
`lambdas/load_inventory/lambda_function.py`. `s3 bucket key` gives the
parsed rows of the stored CSV object; an absent `Records` key is the
empty list (the source reads `event.get("Records", [])`). -/
def lambda_handler (s3 : String → String → List Row)
    (records : List S3Rec) : LoadRun :=
  if records.isEmpty then
    ⟨[("ok", .jb true), ("msg", .js "no records")], 0, []⟩
  else
    let res := records.foldl
      (fun acc r =>
        let step := loadRecordStep (s3 r.bucket r.key)
        (acc.1 + 1, acc.2.1 ++ step.1, acc.2.2 + step.2))
      ((0, [], 0) : Nat × List InvItem × Nat)
    ⟨[("ok", .jb true), ("written", .jn res.2.2)], res.1, res.2.1⟩

end LoadInventory

/-- C4: for every CSV row processed by the ingestion handler, a row whose
store and item are nonempty but whose count does not parse as an integer
is stored with count 0; a row with an empty (or missing) store or item is
skipped and not written; and a row under capitalized column names
`Store`/`Item`/`Count` is processed exactly as under `store`/`item`/
`count`. -/
theorem claim_C4_load_inventory_rows :
    (∀ row : LoadInventory.Row, LoadInventory.rowStore row ≠ "" →
      LoadInventory.rowItem row ≠ "" →
      pyInt (LoadInventory.rowCountRaw row) = none →
      LoadInventory.processRow row =
        some ⟨LoadInventory.rowStore row, LoadInventory.rowItem row, 0⟩) ∧
    (∀ row : LoadInventory.Row,
      LoadInventory.rowStore row = "" ∨ LoadInventory.rowItem row = "" →
      LoadInventory.processRow row = none) ∧
    (∀ s i c : String,
      LoadInventory.processRow [("store", s), ("item", i), ("count", c)] =
        LoadInventory.processRow [("Store", s), ("Item", i), ("Count", c)]) := by
  refine ⟨?_, ?_, ?_⟩
  · intro row hs hi hp
    rw [LoadInventory.processRow, if_neg (by tauto), hp]
    rfl
  · intro row h
    rw [LoadInventory.processRow, if_pos h]
  · intro s i c
    rfl

/-- C4, witness: a row with padded store `" Berlin "`, item `"bread"`
and non-numeric count `"abc"` is written as store `Berlin`, item
`bread`, count 0. -/
theorem claim_C4_load_inventory_rows_witness :
    LoadInventory.processRow
      [("store", " Berlin "), ("item", "bread"), ("count", "abc")] =
      some ⟨"Berlin", "bread", 0⟩ :=
  claim_C4_load_inventory_rows.1
    [("store", " Berlin "), ("item", "bread"), ("count", "abc")]
    (by decide) (by decide) (by decide)

/-- C10: invoked with an empty (or absent) `Records` list, the ingestion
handler returns `{"ok": true, "msg": "no records"}` — a body with no
`written` field — and performs no object download and no table write. -/
theorem claim_C10_load_inventory_no_records
    (s3 : String → String → List LoadInventory.Row) :
    LoadInventory.lambda_handler s3 [] =
      ⟨[("ok", .jb true), ("msg", .js "no records")], 0, []⟩ ∧
    LoadInventory.bodyGet (LoadInventory.lambda_handler s3 []).body
      "written" = none ∧
    LoadInventory.bodyGet (LoadInventory.lambda_handler s3 []).body
      "msg" = some (.js "no records") :=
  ⟨rfl, rfl, rfl⟩

namespace GetInventoryApi

/-- One item of the inventory table, with the attributes the ingestion
handler writes. -/
structure DbRow where
  store : String
  item : String
  count : Int
deriving DecidableEq, Repr

/-- The pieces of the API Gateway event the query handler reads:
`event.get("requestContext", {}).get("http", {}).get("method", "")` and
`event.get("pathParameters")`. -/
structure ApiEvent where
  method : String
  pathParameters : Option (List (String × String))
deriving DecidableEq, Repr

/-- A row of the response body: a dict with exactly the keys `store`,
`item`, `count`. -/
structure OutRow where
  store : String
  item : String
  count : Int
deriving DecidableEq, Repr

/-- The JSON body passed to `_response`. -/
inductive RespBody where
  | okBody
  | rows (items : List OutRow)
deriving DecidableEq, Repr

/-- The response dict built by `_response(status, body_obj)`. -/
structure ApiResp where
  statusCode : Nat
  body : RespBody
deriving DecidableEq, Repr

/-- How many `table.query` and `table.scan` calls a run performed. -/
structure TableOps where
  queries : Nat
  scans : Nat
deriving DecidableEq, Repr

/-- `path_params.get("store")`. -/
def paramsGet (ps : List (String × String)) (k : String) : Option String :=
  (List.find? (fun p => p.1 == k) ps).map (·.2)

/-- `[{"store": i.get("Store"), "item": i.get("Item"),
"count": i.get("Count")} for i in items]`. -/
def toOut (items : List DbRow) : List OutRow :=
  items.map (fun i => ⟨i.store, i.item, i.count⟩)

/-- `lambda_handler(event, context)` of
`lambdas/get_inventory_api/lambda_function.py`. `table.query` with
`Key("Store").eq(store)` returns the rows of that store;
`table.scan` returns all rows. The nested match/if mirrors Python's
truthiness test `if store:` — `None` and the empty string both fall
through to the scan branch. -/
def lambda_handler (table : List DbRow) (event : ApiEvent) :
    ApiResp × TableOps :=
  if event.method = "OPTIONS" then (⟨200, .okBody⟩, ⟨0, 0⟩)
  else
    match paramsGet (event.pathParameters.getD []) "store" with
    | some st =>
      if st ≠ "" then
        (⟨200, .rows (toOut (table.filter (fun r => r.store == st)))⟩,
          ⟨1, 0⟩)
      else (⟨200, .rows (toOut table)⟩, ⟨0, 1⟩)
    | none => (⟨200, .rows (toOut table)⟩, ⟨0, 1⟩)

/-- The store path parameter as the handler extracts it. -/
def storeParam (event : ApiEvent) : Option String :=
  paramsGet (event.pathParameters.getD []) "store"

end GetInventoryApi

/-- C5, counterexample. The claim says a request with a store path
parameter returns only the rows whose store equals that parameter; but a
request whose store parameter is the empty string (a present parameter)
falls through Python's `if store:` truthiness test to the full scan and
returns a row whose store is `"Berlin"`, not `""`. -/
theorem claim_C5_counterexample :
    GetInventoryApi.lambda_handler [⟨"Berlin", "bread", 3⟩]
      ⟨"GET", some [("store", "")]⟩ =
      (⟨200, .rows [⟨"Berlin", "bread", 3⟩]⟩, ⟨0, 1⟩) ∧
    "Berlin" ≠ "" :=
  ⟨rfl, by decide⟩

/-- C5 (amended): an `OPTIONS` request returns status 200 with no table
read; a request with a nonempty store path parameter returns exactly the
rows whose store equals that parameter (one query, no scan); a request
with no store path parameter — or an empty-string one, which Python's
truthiness treats as absent — returns all rows via a scan; and every
returned row is the `{store, item, count}` image of a table row. -/
theorem claim_C5_get_inventory_api (table : List GetInventoryApi.DbRow)
    (event : GetInventoryApi.ApiEvent) :
    (event.method = "OPTIONS" →
      GetInventoryApi.lambda_handler table event =
        (⟨200, .okBody⟩, ⟨0, 0⟩)) ∧
    (∀ st, event.method ≠ "OPTIONS" →
      GetInventoryApi.storeParam event = some st → st ≠ "" →
      GetInventoryApi.lambda_handler table event =
        (⟨200, .rows (GetInventoryApi.toOut
          (table.filter (fun r => r.store == st)))⟩, ⟨1, 0⟩)) ∧
    (event.method ≠ "OPTIONS" →
      (GetInventoryApi.storeParam event = none ∨
        GetInventoryApi.storeParam event = some "") →
      GetInventoryApi.lambda_handler table event =
        (⟨200, .rows (GetInventoryApi.toOut table)⟩, ⟨0, 1⟩)) ∧
    (∀ out, ((GetInventoryApi.lambda_handler table event).1).body =
        .rows out →
      ∃ src, out = GetInventoryApi.toOut src) := by
  refine ⟨?_, ?_, ?_, ?_⟩
  · intro h
    simp [GetInventoryApi.lambda_handler, h]
  · intro st hm hp hne
    rw [GetInventoryApi.storeParam] at hp
    simp [GetInventoryApi.lambda_handler, hm, hp, hne]
  · intro hm hp
    rw [GetInventoryApi.storeParam] at hp
    rcases hp with hp | hp <;>
      simp [GetInventoryApi.lambda_handler, hm, hp]
  · intro out hout
    by_cases hm : event.method = "OPTIONS"
    · simp [GetInventoryApi.lambda_handler, hm] at hout
    · rw [GetInventoryApi.lambda_handler, if_neg hm] at hout
      rcases hq : GetInventoryApi.paramsGet
          (event.pathParameters.getD []) "store" with _ | st
      · rw [hq] at hout
        exact ⟨table, by simpa using hout.symm⟩
      · rw [hq] at hout
        by_cases hne : st ≠ ""
        · simp [hne] at hout
          exact ⟨table.filter (fun r => r.store == st), hout.symm⟩
        · have he : st = "" := not_not.mp hne
          subst he
          simp at hout
          exact ⟨table, hout.symm⟩

/-- C5, witness: a `GET` request for store `Berlin` against a two-store
table returns exactly the Berlin row via one query, and the `OPTIONS`
part answers without a table read. -/
theorem claim_C5_get_inventory_api_witness :
    GetInventoryApi.lambda_handler
      [⟨"Berlin", "bread", 3⟩, ⟨"Paris", "milk", 5⟩]
      ⟨"GET", some [("store", "Berlin")]⟩ =
      (⟨200, .rows [⟨"Berlin", "bread", 3⟩]⟩, ⟨1, 0⟩) :=
  (claim_C5_get_inventory_api
    [⟨"Berlin", "bread", 3⟩, ⟨"Paris", "milk", 5⟩]
    ⟨"GET", some [("store", "Berlin")]⟩).2.1 "Berlin"
    (by decide) (by decide) (by decide)

namespace Deploy

/-- One route of the HTTP API, as `get_routes` reports it. -/
structure Route where
  routeKey : String
  target : String
deriving DecidableEq, Repr

/-- `ensure_route(route_key)` from `ensure_http_api` in `infra/deploy.py`:
return unchanged when a registered route carries the key, else
`create_route` targeting the integration. -/
def ensure_route (integrationId : String) (routes : List Route)
    (key : String) : List Route :=
  if routes.any (fun r => r.routeKey == key) then routes
  else routes ++ [⟨key, "integrations/" ++ integrationId⟩]

/-- The two `ensure_route` calls `ensure_http_api` performs, in source
order. -/
def ensureRoutes (integrationId : String) (routes : List Route) :
    List Route :=
  ensure_route integrationId
    (ensure_route integrationId routes "GET /items") "GET /items/{store}"

lemma ensure_route_of_present (ig : String) (routes : List Route)
    (key : String) (h : routes.any (fun r => r.routeKey == key) = true) :
    ensure_route ig routes key = routes := by
  rw [ensure_route, if_pos h]

lemma ensure_route_key_present (ig : String) (routes : List Route)
    (key : String) :
    (ensure_route ig routes key).any (fun r => r.routeKey == key) = true := by
  rw [ensure_route]
  by_cases h : routes.any (fun r => r.routeKey == key) = true
  · rw [if_pos h]; exact h
  · rw [if_neg h]
    simp

lemma ensure_route_preserves_present (ig : String) (routes : List Route)
    (key key' : String)
    (h : routes.any (fun r => r.routeKey == key') = true) :
    (ensure_route ig routes key).any (fun r => r.routeKey == key') = true := by
  rw [ensure_route]
  by_cases hk : routes.any (fun r => r.routeKey == key) = true
  · rw [if_pos hk]; exact h
  · rw [if_neg hk]
    simp [List.any_append, h]

lemma countP_ensure_route (ig : String) (routes : List Route)
    (k key : String)
    (hpres : routes.any (fun r => r.routeKey == key) = true) :
    (ensure_route ig routes k).countP (fun r => r.routeKey == key) =
      routes.countP (fun r => r.routeKey == key) := by
  rw [ensure_route]
  by_cases h : routes.any (fun r => r.routeKey == k) = true
  · rw [if_pos h]
  · rw [if_neg h]
    by_cases hk : k = key
    · subst hk
      exact absurd hpres h
    · rw [List.countP_append]
      simp [List.countP_cons, hk]

lemma ensureRoutes_idem (ig : String) (routes : List Route) :
    ensureRoutes ig (ensureRoutes ig routes) = ensureRoutes ig routes := by
  have h1 : (ensureRoutes ig routes).any
      (fun r => r.routeKey == "GET /items") = true :=
    ensure_route_preserves_present ig _ _ _
      (ensure_route_key_present ig routes "GET /items")
  have h2 : (ensureRoutes ig routes).any
      (fun r => r.routeKey == "GET /items/{store}") = true :=
    ensure_route_key_present ig _ "GET /items/{store}"
  rw [ensureRoutes, ensure_route_of_present ig _ _ h1,
    ensure_route_of_present ig _ _ h2]

end Deploy

/-- C7: for each route key in the fixed set {`GET /items`,
`GET /items/{store}`}, running the route ensurer when a route with that
key is already registered returns the route table unchanged and creates
no second route with the key, and re-running the routing configurator's
route step any number of times equals running it once. -/
theorem claim_C7_ensure_route (ig : String) (routes : List Deploy.Route)
    (key : String)
    (_hkey : key = "GET /items" ∨ key = "GET /items/{store}") :
    (routes.any (fun r => r.routeKey == key) = true →
      Deploy.ensure_route ig routes key = routes ∧
      (Deploy.ensureRoutes ig routes).countP
          (fun r => r.routeKey == key) =
        routes.countP (fun r => r.routeKey == key)) ∧
    (∀ n, Nat.iterate (Deploy.ensureRoutes ig) (n + 1) routes =
      Deploy.ensureRoutes ig routes) := by
  constructor
  · intro h
    refine ⟨Deploy.ensure_route_of_present ig routes key h, ?_⟩
    rw [Deploy.ensureRoutes, Deploy.countP_ensure_route,
      Deploy.countP_ensure_route]
    · exact h
    · exact Deploy.ensure_route_preserves_present ig routes _ key h
  · intro n
    induction n with
    | zero => rfl
    | succ n ih =>
      rw [Function.iterate_succ_apply', ih, Deploy.ensureRoutes_idem]

/-- A route table already containing `GET /items`. -/
def c7Routes : List Deploy.Route := [⟨"GET /items", "integrations/int1"⟩]

/-- C7, witness: with `GET /items` already registered, the ensurer leaves
the table unchanged and the configurator's route step does not create a
second `GET /items` route. -/
theorem claim_C7_ensure_route_witness :
    Deploy.ensure_route "int1" c7Routes "GET /items" = c7Routes ∧
    (Deploy.ensureRoutes "int1" c7Routes).countP
        (fun r => r.routeKey == "GET /items") =
      c7Routes.countP (fun r => r.routeKey == "GET /items") :=
  (claim_C7_ensure_route "int1" c7Routes "GET /items" (Or.inl rfl)).1
    (by decide)

namespace Deploy

/-- One event source mapping, as `list_event_source_mappings` reports
it: its `UUID`, the bound function, and its `EventSourceArn`. -/
structure EsMapping where
  uuid : String
  functionArn : String
  eventSourceArn : String
deriving DecidableEq, Repr

/-- `lambda_client.list_event_source_mappings(FunctionName=...)`. -/
def listEventSourceMappings (ms : List EsMapping) (fn : String) :
    List EsMapping :=
  ms.filter (fun m => m.functionArn == fn)

/-- `ensure_event_source_mapping(lambda_client, function_arn,
stream_arn)` from `infra/deploy.py`: return the first listed mapping
whose `EventSourceArn` matches, else `create_event_source_mapping`
(which assigns the fresh UUID). Returns the UUID and the new mapping
state. -/
def ensure_event_source_mapping (ms : List EsMapping)
    (functionArn streamArn freshUuid : String) : String × List EsMapping :=
  match (listEventSourceMappings ms functionArn).find?
      (fun m => m.eventSourceArn == streamArn) with
  | some m => (m.uuid, ms)
  | none => (freshUuid, ms ++ [⟨freshUuid, functionArn, streamArn⟩])

/-- Number of mappings binding the given (function, stream) pair. -/
def countPair (ms : List EsMapping) (fn st : String) : Nat :=
  ms.countP (fun m => m.functionArn == fn && m.eventSourceArn == st)

lemma find_none_iff_countPair_zero (ms : List EsMapping) (fn st : String) :
    ((listEventSourceMappings ms fn).find?
        (fun m => m.eventSourceArn == st) = none) ↔
      countPair ms fn st = 0 := by
  rw [List.find?_eq_none, countPair, List.countP_eq_zero,
    listEventSourceMappings]
  constructor
  · intro h m hm hb
    rw [Bool.and_eq_true] at hb
    exact absurd hb.2 (by simpa using h m (List.mem_filter.mpr ⟨hm, hb.1⟩))
  · intro h m hm
    have hmf := List.mem_filter.mp hm
    intro hb
    exact absurd (Bool.and_eq_true _ _ |>.mpr ⟨hmf.2, hb⟩) (h m hmf.1)

end Deploy

/-- C9: `ensure_event_source_mapping` keeps at most one binding per
(stream, function) pair: when a mapping for the pair exists it returns
that mapping's UUID and leaves the mapping state untouched; when none
exists it appends exactly one new mapping for the pair; the pair's
binding count afterwards is 1 when it was 0 and unchanged otherwise, so
a state with at most one binding per pair stays that way. -/
theorem claim_C9_ensure_event_source_mapping (ms : List Deploy.EsMapping)
    (fn st fresh : String) :
    (∀ m, (Deploy.listEventSourceMappings ms fn).find?
        (fun m => m.eventSourceArn == st) = some m →
      Deploy.ensure_event_source_mapping ms fn st fresh = (m.uuid, ms)) ∧
    (Deploy.countPair ms fn st = 0 →
      Deploy.ensure_event_source_mapping ms fn st fresh =
        (fresh, ms ++ [⟨fresh, fn, st⟩])) ∧
    (Deploy.countPair (Deploy.ensure_event_source_mapping ms fn st fresh).2
        fn st =
      (if Deploy.countPair ms fn st = 0 then 1
        else Deploy.countPair ms fn st)) ∧
    (Deploy.countPair ms fn st ≤ 1 →
      Deploy.countPair
        (Deploy.ensure_event_source_mapping ms fn st fresh).2 fn st ≤ 1) := by
  have hmain : ∀ hz : Deploy.countPair ms fn st = 0,
      Deploy.ensure_event_source_mapping ms fn st fresh =
        (fresh, ms ++ [⟨fresh, fn, st⟩]) := by
    intro hz
    rw [Deploy.ensure_event_source_mapping,
      (Deploy.find_none_iff_countPair_zero ms fn st).mpr hz]
  refine ⟨?_, hmain, ?_, ?_⟩
  · intro m hm
    rw [Deploy.ensure_event_source_mapping, hm]
  · by_cases hz : Deploy.countPair ms fn st = 0
    · rw [hmain hz, if_pos hz]
      show Deploy.countPair (ms ++ [⟨fresh, fn, st⟩]) fn st = 1
      rw [Deploy.countPair, List.countP_append]
      rw [Deploy.countPair] at hz
      rw [hz]
      simp [List.countP_cons]
    · rw [if_neg hz]
      rcases hf : (Deploy.listEventSourceMappings ms fn).find?
          (fun m => m.eventSourceArn == st) with _ | m
      · exact absurd ((Deploy.find_none_iff_countPair_zero ms fn st).mp hf)
          hz
      · rw [Deploy.ensure_event_source_mapping, hf]
  · intro h1
    by_cases hz : Deploy.countPair ms fn st = 0
    · rw [hmain hz]
      show Deploy.countPair (ms ++ [⟨fresh, fn, st⟩]) fn st ≤ 1
      rw [Deploy.countPair, List.countP_append]
      rw [Deploy.countPair] at hz
      rw [hz]
      simp [List.countP_cons]
    · rcases hf : (Deploy.listEventSourceMappings ms fn).find?
          (fun m => m.eventSourceArn == st) with _ | m
      · exact absurd ((Deploy.find_none_iff_countPair_zero ms fn st).mp hf)
          hz
      · rw [Deploy.ensure_event_source_mapping, hf]
        exact h1

/-- An existing binding of function `fnA` to stream `stA`. -/
def c9Mappings : List Deploy.EsMapping := [⟨"uuid1", "fnA", "stA"⟩]

/-- C9, witness: with the (fnA, stA) binding already present, the ensurer
returns its UUID, changes nothing, and the pair's binding count stays 1. -/
theorem claim_C9_ensure_event_source_mapping_witness :
    Deploy.ensure_event_source_mapping c9Mappings "fnA" "stA" "uuidNew" =
      ("uuid1", c9Mappings) ∧
    Deploy.countPair
      (Deploy.ensure_event_source_mapping c9Mappings "fnA" "stA"
        "uuidNew").2 "fnA" "stA" ≤ 1 := by
  have h := claim_C9_ensure_event_source_mapping c9Mappings "fnA" "stA"
    "uuidNew"
  exact ⟨h.1 ⟨"uuid1", "fnA", "stA"⟩ (by decide), h.2.2.2 (by decide)⟩

namespace Teardown

/-- An object version (or delete marker) of a versioned bucket. -/
structure ObjVer where
  key : String
  versionId : String
deriving DecidableEq, BEq, Repr

/-- Contents of one S3 bucket. -/
structure BucketData where
  versions : List ObjVer
  deleteMarkers : List ObjVer
  objects : List String
deriving Repr

/-- One SNS topic: its ARN and the `SubscriptionArn` of each of its
subscriptions (`none` when the listing entry lacks the key). -/
structure TopicData where
  arn : String
  subscriptionArns : List (Option String)
deriving Repr

/-- One HTTP API, as `get_apis` reports it. -/
structure ApiData where
  apiId : String
  name : String
deriving Repr

/-- State of all provider resources `teardown.py` touches. -/
structure AwsState where
  apis : List ApiData
  functions : List String
  mappings : List Deploy.EsMapping
  topics : List TopicData
  tables : List String
  buckets : List (String × BucketData)
deriving Repr

/-- The provider state together with the lines printed so far. -/
structure World where
  aws : AwsState
  log : List String
deriving Repr

/-- A teardown computation: runs against a world and either returns a
value or raises a `ClientError`; printed lines persist either way. -/
def TD (α : Type) : Type := World → Except ClientErr α × World

/-- Sequencing with `ClientError` propagation. -/
def tdBind {α β : Type} (x : TD α) (f : α → TD β) : TD β := fun w =>
  match x w with
  | (.ok a, w') => f a w'
  | (.error e, w') => (.error e, w')

/-- A pure value. -/
def tdPure {α : Type} (a : α) : TD α := fun w => (.ok a, w)

instance : Monad TD where
  pure := tdPure
  bind := tdBind

/-- `print(...)`. -/
def tdPrint (msg : String) : TD Unit :=
  fun w => (.ok (), ⟨w.aws, w.log ++ [msg]⟩)

/-- `try: act except ClientError as e: handler e`. -/
def tryCE {α : Type} (act : TD α) (handler : ClientErr → TD α) : TD α :=
  fun w =>
    match act w with
    | (.ok a, w') => (.ok a, w')
    | (.error e, w') => handler e w'

/-- `apigw.get_apis().get("Items", [])`. -/
def getApis : TD (List ApiData) := fun w => (.ok w.aws.apis, w)

/-- `apigw.delete_api(ApiId=...)`: `NotFoundException` when absent. -/
def deleteApi (apiId : String) : TD Unit := fun w =>
  if w.aws.apis.any (fun a => a.apiId == apiId) then
    (.ok (), ⟨{ w.aws with
      apis := w.aws.apis.filter (fun a => !(a.apiId == apiId)) }, w.log⟩)
  else (.error ⟨"NotFoundException"⟩, w)

/-- `lamb.list_event_source_mappings(FunctionName=...)`: the mappings of
that function (empty when the function has none or does not exist). -/
def listMappings (fn : String) : TD (List Deploy.EsMapping) := fun w =>
  (.ok (w.aws.mappings.filter (fun m => m.functionArn == fn)), w)

/-- `lamb.delete_event_source_mapping(UUID=...)`:
`ResourceNotFoundException` when absent. -/
def deleteMapping (uuid : String) : TD Unit := fun w =>
  if w.aws.mappings.any (fun m => m.uuid == uuid) then
    (.ok (), ⟨{ w.aws with
      mappings := w.aws.mappings.filter (fun m => !(m.uuid == uuid)) },
      w.log⟩)
  else (.error ⟨"ResourceNotFoundException"⟩, w)

/-- `lamb.delete_function(FunctionName=...)`:
`ResourceNotFoundException` when absent. -/
def deleteFunction (fn : String) : TD Unit := fun w =>
  if w.aws.functions.any (fun f => f == fn) then
    (.ok (), ⟨{ w.aws with
      functions := w.aws.functions.filter (fun f => !(f == fn)) }, w.log⟩)
  else (.error ⟨"ResourceNotFoundException"⟩, w)

/-- `sns.list_topics().get("Topics", [])`. -/
def listTopics : TD (List TopicData) := fun w => (.ok w.aws.topics, w)

/-- `sns.list_subscriptions_by_topic(TopicArn=...)`: `NotFoundException`
when the topic is absent. -/
def listSubs (arn : String) : TD (List (Option String)) := fun w =>
  match w.aws.topics.find? (fun t => t.arn == arn) with
  | some t => (.ok t.subscriptionArns, w)
  | none => (.error ⟨"NotFoundException"⟩, w)

/-- `sns.unsubscribe(SubscriptionArn=...)`: `NotFoundException` when no
topic holds the subscription. -/
def unsubscribe (subArn : String) : TD Unit := fun w =>
  if w.aws.topics.any (fun t => t.subscriptionArns.contains (some subArn))
  then
    (.ok (), ⟨{ w.aws with
      topics := w.aws.topics.map (fun t =>
        ⟨t.arn, t.subscriptionArns.filter
          (fun a => !(a == some subArn))⟩) }, w.log⟩)
  else (.error ⟨"NotFoundException"⟩, w)

/-- `sns.delete_topic(TopicArn=...)`: `NotFoundException` when absent. -/
def deleteTopic (arn : String) : TD Unit := fun w =>
  if w.aws.topics.any (fun t => t.arn == arn) then
    (.ok (), ⟨{ w.aws with
      topics := w.aws.topics.filter (fun t => !(t.arn == arn)) }, w.log⟩)
  else (.error ⟨"NotFoundException"⟩, w)

/-- `ddb.delete_table(TableName=...)`: `ResourceNotFoundException` when
absent. -/
def deleteTable (name : String) : TD Unit := fun w =>
  if w.aws.tables.any (fun t => t == name) then
    (.ok (), ⟨{ w.aws with
      tables := w.aws.tables.filter (fun t => !(t == name)) }, w.log⟩)
  else (.error ⟨"ResourceNotFoundException"⟩, w)

/-- The versions and delete markers of a bucket, as one page of the
`list_object_versions` paginator; `NoSuchBucket` when absent. -/
def listObjectVersions (bucket : String) :
    TD (List ObjVer × List ObjVer) := fun w =>
  match w.aws.buckets.find? (fun p => p.1 == bucket) with
  | some (_, bd) => (.ok (bd.versions, bd.deleteMarkers), w)
  | none => (.error ⟨"NoSuchBucket"⟩, w)

/-- One page of the `list_objects_v2` paginator; `NoSuchBucket` when the
bucket is absent. -/
def listObjectsV2 (bucket : String) : TD (List String) := fun w =>
  match w.aws.buckets.find? (fun p => p.1 == bucket) with
  | some (_, bd) => (.ok bd.objects, w)
  | none => (.error ⟨"NoSuchBucket"⟩, w)

/-- `s3.delete_objects` on version entries (versions and delete
markers). -/
def deleteVersionedObjects (bucket : String) (objs : List ObjVer) :
    TD Unit := fun w =>
  match w.aws.buckets.find? (fun p => p.1 == bucket) with
  | none => (.error ⟨"NoSuchBucket"⟩, w)
  | some _ =>
    (.ok (), ⟨{ w.aws with
      buckets := w.aws.buckets.map (fun p =>
        if p.1 == bucket then
          (p.1, ⟨p.2.versions.filter (fun v => !(objs.contains v)),
            p.2.deleteMarkers.filter (fun v => !(objs.contains v)),
            p.2.objects⟩)
        else p) }, w.log⟩)

/-- `s3.delete_objects` on plain keys. -/
def deleteKeyObjects (bucket : String) (keys : List String) :
    TD Unit := fun w =>
  match w.aws.buckets.find? (fun p => p.1 == bucket) with
  | none => (.error ⟨"NoSuchBucket"⟩, w)
  | some _ =>
    (.ok (), ⟨{ w.aws with
      buckets := w.aws.buckets.map (fun p =>
        if p.1 == bucket then
          (p.1, ⟨p.2.versions, p.2.deleteMarkers,
            p.2.objects.filter (fun k => !(keys.contains k))⟩)
        else p) }, w.log⟩)

/-- `s3.delete_bucket(Bucket=...)`: `NoSuchBucket` when absent,
`BucketNotEmpty` when any object, version or marker remains. -/
def deleteBucket (bucket : String) : TD Unit := fun w =>
  match w.aws.buckets.find? (fun p => p.1 == bucket) with
  | none => (.error ⟨"NoSuchBucket"⟩, w)
  | some (_, bd) =>
    if bd.objects.isEmpty && bd.versions.isEmpty &&
        bd.deleteMarkers.isEmpty then
      (.ok (), ⟨{ w.aws with
        buckets := w.aws.buckets.filter (fun p => !(p.1 == bucket)) },
        w.log⟩)
    else (.error ⟨"BucketNotEmpty"⟩, w)

end Teardown

namespace Teardown

/-- A Python `for` loop over a list, performing `f` per element. -/
def tdForM {α : Type} (xs : List α) (f : α → TD Unit) : TD Unit :=
  match xs with
  | [] => pure ()
  | x :: rest => do
    f x
    tdForM rest f

/-- `empty_bucket(s3, bucket)` from `infra/teardown.py`: delete all
object versions and delete markers, then all current objects, each half
inside `try: ... except ClientError: pass`; `if objs:` guards each
`delete_objects` call. -/
def empty_bucket (bucket : String) : TD Unit := do
  tryCE
    (do
      let vm ← listObjectVersions bucket
      let objs := vm.1 ++ vm.2
      if objs.isEmpty then pure ()
      else deleteVersionedObjects bucket objs)
    (fun _ => pure ())
  tryCE
    (do
      let keys ← listObjectsV2 bucket
      if keys.isEmpty then pure ()
      else deleteKeyObjects bucket keys)
    (fun _ => pure ())

/-- The body of `main()` in `infra/teardown.py` before its final
`print("== DONE ==")`: delete the API by name, the event source mappings
and Lambda functions, the SNS topic (unsubscribing first), the DynamoDB
table, and finally the emptied buckets — every step wrapped in the
source's `try/except ClientError` structure. -/
def teardownBody (suffix tableName : String) : TD Unit := do
  tdPrint "== TEARDOWN =="
  tryCE
    (do
      let apis ← getApis
      tdForM apis (fun a =>
        if a.name == "inventory-api-" ++ suffix then do
          deleteApi a.apiId
          tdPrint ("Deleted API: " ++ a.apiId)
        else pure ()))
    (fun e => tdPrint ("API delete error: " ++ e.code))
  tdForM ["load_inventory_" ++ suffix, "get_inventory_api_" ++ suffix,
    "notify_low_stock_" ++ suffix] (fun fn =>
    tryCE
      (do
        let mappings ← listMappings fn
        tdForM mappings (fun m =>
          tryCE
            (do
              deleteMapping m.uuid
              tdPrint ("Deleted mapping: " ++ m.uuid))
            (fun _ => pure ()))
        deleteFunction fn
        tdPrint ("Deleted Lambda: " ++ fn))
      (fun _ => pure ()))
  tryCE
    (do
      let topics ← listTopics
      tdForM topics (fun t =>
        if t.arn.endsWith (":" ++ ("inventory-low-stock-" ++ suffix)) then
          do
            let subs ← listSubs t.arn
            tdForM subs (fun sArn =>
              match sArn with
              | some a =>
                if a ≠ "PendingConfirmation" then
                  tryCE (unsubscribe a) (fun _ => pure ())
                else pure ()
              | none => pure ())
            deleteTopic t.arn
            tdPrint ("Deleted SNS topic: " ++ t.arn)
        else pure ()))
    (fun e => tdPrint ("SNS delete error: " ++ e.code))
  tryCE
    (do
      deleteTable tableName
      tdPrint ("Deleted DynamoDB table: " ++ tableName))
    (fun _ => pure ())
  tdForM ["inventory-uploads-" ++ suffix, "inventory-web-" ++ suffix]
    (fun b =>
      tryCE
        (do
          empty_bucket b
          deleteBucket b
          tdPrint ("Deleted bucket: " ++ b))
        (fun _ => pure ()))

/-- `main()` of `infra/teardown.py`. -/
def teardown_main (suffix tableName : String) : TD Unit := do
  teardownBody suffix tableName
  tdPrint "== DONE =="

/-- A computation that returns normally (no uncaught `ClientError`) from
every starting world. -/
def TotalOk {α : Type} (act : TD α) : Prop :=
  ∀ w, (act w).1.isOk = true

lemma totalOk_pure {α : Type} (a : α) : TotalOk (pure a : TD α) := by
  intro w
  rfl

lemma totalOk_bind {α β : Type} {x : TD α} {f : α → TD β}
    (hx : TotalOk x) (hf : ∀ a, TotalOk (f a)) : TotalOk (x >>= f) := by
  intro w
  show (tdBind x f w).1.isOk = true
  rw [tdBind]
  rcases hxw : x w with ⟨r, w1⟩
  cases r with
  | ok a => exact hf a w1
  | error e =>
    have := hx w
    rw [hxw] at this
    exact absurd this (by simp [Except.isOk, Except.toBool])

lemma totalOk_tryCE {α : Type} (act : TD α) {handler : ClientErr → TD α}
    (hh : ∀ e, TotalOk (handler e)) : TotalOk (tryCE act handler) := by
  intro w
  rw [tryCE]
  rcases act w with ⟨r, w1⟩
  cases r with
  | ok a => rfl
  | error e => exact hh e w1

lemma totalOk_tdPrint (msg : String) : TotalOk (tdPrint msg) := by
  intro w
  rfl

lemma totalOk_forM {α : Type} {f : α → TD Unit}
    (hf : ∀ x, TotalOk (f x)) :
    ∀ xs : List α, TotalOk (tdForM xs f) := by
  intro xs
  induction xs with
  | nil => intro w; rfl
  | cons x xs ih =>
    rw [tdForM]
    exact totalOk_bind (hf x) (fun _ => ih)

lemma totalOk_teardownBody (suffix tableName : String) :
    TotalOk (teardownBody suffix tableName) := by
  rw [teardownBody]
  refine totalOk_bind (totalOk_tdPrint _) (fun _ => ?_)
  refine totalOk_bind
    (totalOk_tryCE _ (fun e => totalOk_tdPrint _)) (fun _ => ?_)
  refine totalOk_bind
    (totalOk_forM (fun fn => totalOk_tryCE _ (fun _ => totalOk_pure _)) _)
    (fun _ => ?_)
  refine totalOk_bind
    (totalOk_tryCE _ (fun e => totalOk_tdPrint _)) (fun _ => ?_)
  refine totalOk_bind
    (totalOk_tryCE _ (fun _ => totalOk_pure _)) (fun _ => ?_)
  exact totalOk_forM
    (fun b => totalOk_tryCE _ (fun _ => totalOk_pure _)) _

lemma run_print_after {act : TD Unit} (hact : TotalOk act) (msg : String)
    (w : World) :
    ∃ w', (act >>= fun _ => tdPrint msg) w = (.ok (), w') ∧
      msg ∈ w'.log := by
  rcases hxw : act w with ⟨r, w1⟩
  cases r with
  | error e =>
    have := hact w
    rw [hxw] at this
    exact absurd this (by simp [Except.isOk, Except.toBool])
  | ok a =>
    refine ⟨⟨w1.aws, w1.log ++ [msg]⟩, ?_, ?_⟩
    · show tdBind act (fun _ => tdPrint msg) w = _
      rw [tdBind, hxw]
      rfl
    · simp

end Teardown

/-- C8: from every starting state of the managed resources — in
particular when a bucket, function or topic to delete does not exist —
`teardown.py`'s `main` completes without an uncaught exception and its
log reports `== DONE ==`: every deletion failure is caught by a
surrounding `except ClientError`, so no single resource's failure aborts
the remaining categories. -/
theorem claim_C8_teardown (suffix tableName : String)
    (w : Teardown.World) :
    ∃ w', Teardown.teardown_main suffix tableName w = (.ok (), w') ∧
      "== DONE ==" ∈ w'.log :=
  Teardown.run_print_after
    (Teardown.totalOk_teardownBody suffix tableName) "== DONE ==" w
